import Mathlib

/-!
# WinNet: TCP and UDP client bindings

A shallow embedding of `WinNet/TCPClient.c` and `WinNet/UDPClient.c`.

The C functions are thin wrappers around Winsock calls.  Every Winsock call is
modelled as an oracle (a field of `OS`) that supplies the value the call
returns; the wrapper code itself is translated statement by statement.  The
effects of a run are recorded in a `World`: the bag of sockets that are
currently open and the chronological list of library calls that were made.
-/

namespace WinNet

/-! ## Winsock types and constants -/

/-- A Winsock `SOCKET` (a `UINT_PTR`); `uintptr_t` cells hold the same values. -/
abbrev SOCKET := Nat

/-- Modelled from the spec: the Winsock headers are not among the sources.
`INVALID_SOCKET` is the sentinel `(SOCKET)(~0)` that a failed socket-create
step returns (here for a 64-bit `UINT_PTR`). -/
def INVALID_SOCKET : SOCKET := 18446744073709551615

/-- Modelled from the spec: the Winsock headers are not among the sources.
`SOCKET_ERROR` is the value `-1` that a failed socket call returns. -/
def SOCKET_ERROR : Int := -1

/-- Modelled from the spec: address family constant of `winsock2.h`. -/
def AF_UNSPEC : Int := 0
/-- Modelled from the spec: address family constant of `winsock2.h`. -/
def AF_INET : Int := 2
/-- Modelled from the spec: socket type constant of `winsock2.h`. -/
def SOCK_STREAM : Int := 1
/-- Modelled from the spec: socket type constant of `winsock2.h`. -/
def SOCK_DGRAM : Int := 2
/-- Modelled from the spec: protocol constant of `winsock2.h`. -/
def IPPROTO_TCP : Int := 6
/-- Modelled from the spec: protocol constant of `winsock2.h`. -/
def IPPROTO_UDP : Int := 17

/-- A socket address as handed to `bind` and `connect`: family, port (network
byte order) and address.  It stands for `struct sockaddr` and for
`struct sockaddr_in` cast to `SOCKADDR*`. -/
structure SOCKADDR where
  family : Int
  port : Nat
  addr : Nat
deriving DecidableEq

/-- The fields of `struct addrinfo` that `connectTCP` fills in `hints`
(everything else is zeroed by `ZeroMemory`). -/
structure Hints where
  ai_family : Int
  ai_socktype : Int
  ai_protocol : Int
deriving DecidableEq

/-- One node of the list that `getaddrinfo` returns (`ai_next` is the tail of
the Lean list). -/
structure addrinfo where
  ai_family : Int
  ai_socktype : Int
  ai_protocol : Int
  ai_addrlen : Nat
  ai_addr : SOCKADDR
deriving DecidableEq

/-! ## Library calls and the world -/

/-- One library call, with its arguments and the value it returned. -/
inductive Event where
  | getaddrinfo (node service : String) (hints : Hints) (ret : Int)
  | freeaddrinfo
  | socket (af type protocol : Int) (ret : SOCKET)
  | connect (s : SOCKET) (name : SOCKADDR) (namelen : Int) (ret : Int)
  | closesocket (s : SOCKET)
  | inet_pton (af : Int) (src : String) (ret : Int)
  | bind (s : SOCKET) (name : SOCKADDR) (namelen : Int) (ret : Int)
  | send (s : SOCKET) (buf : List Nat) (len : Int) (flags : Int) (ret : Int)
  | recv (s : SOCKET) (len : Int) (flags : Int) (ret : Int)
  | WSAGetLastError (ret : Int)
  | printf (text : String)
deriving DecidableEq

/-- The values the operating system answers with.  `socket` and `connect` take
the number of earlier calls of the same kind in the current run as their first
argument, so that repeated calls may be answered differently; in `connectTCP`
that number is the position of the candidate in the resolved list.
`inet_pton` only parses, so its answer depends on its arguments alone.  No
function makes more than one call of `WSAGetLastError`, `send`, `recv` or
`bind`, so one answer for each is enough. -/
structure OS where
  getaddrinfo : String → String → Hints → Int × List addrinfo
  socket : Nat → Int → Int → Int → SOCKET
  connect : Nat → SOCKET → SOCKADDR → Int → Int
  inet_pton : Int → String → Int × Nat
  bind : SOCKET → SOCKADDR → Int → Int
  send : SOCKET → List Nat → Int → Int → Int
  recv : SOCKET → Int → Int → Int × List Nat
  WSAGetLastError : Int

/-- Explicit state: the sockets that are open and the calls made so far. -/
structure World where
  openSockets : List SOCKET
  trace : List Event
deriving DecidableEq

/-- Records a call that does not change the set of open sockets. -/
def World.emit (w : World) (e : Event) : World :=
  { w with trace := w.trace ++ [e] }

/-- The call `socket(af, type, protocol)`: a returned socket other than
`INVALID_SOCKET` is open from now on. -/
def World.socket (w : World) (af type protocol : Int) (ret : SOCKET) : World :=
  { openSockets := if ret = INVALID_SOCKET then w.openSockets else ret :: w.openSockets
    trace := w.trace ++ [Event.socket af type protocol ret] }

/-- The call `closesocket(s)`: the socket is no longer open. -/
def World.closesocket (w : World) (s : SOCKET) : World :=
  { openSockets := w.openSockets.erase s
    trace := w.trace ++ [Event.closesocket s] }

/-- The open sockets after the calls `evs`, starting from `opened`. -/
def replay (opened : List SOCKET) : List Event → List SOCKET
  | [] => opened
  | Event.socket _ _ _ ret :: evs =>
      replay (if ret = INVALID_SOCKET then opened else ret :: opened) evs
  | Event.closesocket s :: evs => replay (opened.erase s) evs
  | _ :: evs => replay opened evs

/-! ## Formatting with `%d` -/

/-- The decimal digits of `n`, most significant first, without leading zeros;
`fuel` bounds the number of digits. -/
def decimal : Nat → Nat → List Char
  | 0, _ => []
  | fuel + 1, n =>
      if n < 10 then [Nat.digitChar n]
      else decimal fuel (n / 10) ++ [Nat.digitChar (n % 10)]

/-- The conversion `%d` of the C library (`sprintf`, `printf`): the decimal
rendering of a signed integer, with a minus sign for negative values. -/
def fmt_d (n : Int) : String :=
  if n < 0 then String.mk ('-' :: decimal (n.natAbs + 1) n.natAbs)
  else String.mk (decimal (n.toNat + 1) n.toNat)

/-- Size of the buffer `char portString[20]`. -/
def portStringSize : Nat := 20

/-- Reads a string of decimal digits back as a number. -/
def parseDecimal (cs : List Char) : Nat :=
  cs.foldl (fun acc c => 10 * acc + (c.toNat - 48)) 0

/-! ## TCPClient.c -/

/-- How the `for` loop of `connectTCP` is left. -/
inductive LoopExit where
  /-- The statement `return r` inside the loop. -/
  | returned (r : Int)
  /-- The statement `break`, or `ptr == NULL`; carries `ConnectSocket`. -/
  | finished (ConnectSocket : SOCKET)
deriving DecidableEq

/-- The loop `for (ptr = result; ptr != NULL; ptr = ptr->ai_next)` of
`connectTCP`; `k` counts the iterations already done. -/
def connectLoop (os : OS) : Nat → List addrinfo → SOCKET → World → LoopExit × World
  | _, [], ConnectSocket, w => (LoopExit.finished ConnectSocket, w)
  | k, ptr :: ai_next, _, w =>
      let ConnectSocket := os.socket k ptr.ai_family ptr.ai_socktype ptr.ai_protocol
      let w := w.socket ptr.ai_family ptr.ai_socktype ptr.ai_protocol ConnectSocket
      if ConnectSocket = INVALID_SOCKET then
        let e := os.WSAGetLastError
        let w := w.emit (Event.WSAGetLastError e)
        let w := w.emit (Event.printf ("socket failed with error: " ++ fmt_d e ++ "\n"))
        (LoopExit.returned 1, w)
      else
        let iResult := os.connect k ConnectSocket ptr.ai_addr ptr.ai_addrlen
        let w := w.emit (Event.connect ConnectSocket ptr.ai_addr ptr.ai_addrlen iResult)
        if iResult = SOCKET_ERROR then
          let w := w.closesocket ConnectSocket
          connectLoop os (k + 1) ai_next INVALID_SOCKET w
        else
          (LoopExit.finished ConnectSocket, w)

/-- What a call that writes a socket through a pointer leaves behind: the
returned `int`, the contents of the cell the pointer refers to, the world. -/
structure Outcome where
  ret : Int
  socket_out : Nat
  world : World
deriving DecidableEq

/-- The hints `connectTCP` passes to `getaddrinfo`. -/
def tcpHints : Hints :=
  { ai_family := AF_UNSPEC, ai_socktype := SOCK_STREAM, ai_protocol := IPPROTO_TCP }

/-- The function `connectTCP(address, port, socket_out)`; `socket_out` is the
value of `*socket_out` before the call, `port` an `unsigned short`. -/
def connectTCP (os : OS) (address : String) (port : Nat) (socket_out : Nat)
    (w : World) : Outcome :=
  let portString := fmt_d port
  let r := os.getaddrinfo address portString tcpHints
  let iResult := r.1
  let result := r.2
  let w := w.emit (Event.getaddrinfo address portString tcpHints iResult)
  if iResult ≠ 0 then
    let w := w.emit (Event.printf ("getaddrinfo failed with error: " ++ fmt_d iResult ++ "\n"))
    { ret := 1, socket_out := socket_out, world := w }
  else
    match connectLoop os 0 result INVALID_SOCKET w with
    | (LoopExit.returned r, w) => { ret := r, socket_out := socket_out, world := w }
    | (LoopExit.finished ConnectSocket, w) =>
        let w := w.emit Event.freeaddrinfo
        if ConnectSocket = INVALID_SOCKET then
          { ret := 1, socket_out := socket_out, world := w }
        else
          { ret := 0, socket_out := ConnectSocket, world := w }

/-- The function `sendtcp(socket, buffer, bufferLength)`. -/
def sendtcp (os : OS) (socket : Nat) (buffer : List Nat) (bufferLength : Int)
    (w : World) : Int × World :=
  let iResult := os.send socket buffer bufferLength 0
  let w := w.emit (Event.send socket buffer bufferLength 0 iResult)
  if iResult = SOCKET_ERROR then
    let e := os.WSAGetLastError
    let w := w.emit (Event.WSAGetLastError e)
    let w := w.emit (Event.printf ("tcp send failed with error: " ++ fmt_d e ++ "\n"))
    (-1, w)
  else
    (iResult, w)

/-- The function `recvtcp(socket, recvBuf, bytes)`: the returned `int`, the
bytes `recv` stored in `recvBuf`, the world. -/
def recvtcp (os : OS) (socket : Nat) (bytes : Int) (w : World) : Int × List Nat × World :=
  let r := os.recv socket bytes 0
  let iResult := r.1
  (iResult, r.2, w.emit (Event.recv socket bytes 0 iResult))

/-! ## UDPClient.c -/

/-- The function `htons` on a little-endian host: swaps the two bytes of a
16-bit value. -/
def htons (x : Nat) : Nat := (x % 256) * 256 + (x / 256) % 256

/-- The value of `sizeof(struct sockaddr_in)`. -/
def sizeof_sockaddr_in : Int := 16

/-- The function `createUDPClientSocket(serverIP, destinationPort, localPort,
socket_)`; `socket_` is the value of `*socket_` before the call. -/
def createUDPClientSocket (os : OS) (serverIP : String) (destinationPort localPort : Nat)
    (socket_ : Nat) (w : World) : Outcome :=
  let s := os.socket 0 AF_INET SOCK_DGRAM IPPROTO_UDP
  let w := w.socket AF_INET SOCK_DGRAM IPPROTO_UDP s
  if s = INVALID_SOCKET then
    { ret := 1, socket_out := socket_, world := w }
  else
    let p := os.inet_pton AF_INET "127.0.0.1"
    let w := w.emit (Event.inet_pton AF_INET "127.0.0.1" p.1)
    if p.1 ≠ 1 then
      { ret := 1, socket_out := socket_, world := w }
    else
      let localAddr : SOCKADDR := { family := AF_INET, port := htons localPort, addr := p.2 }
      let b := os.bind s localAddr sizeof_sockaddr_in
      let w := w.emit (Event.bind s localAddr sizeof_sockaddr_in b)
      if b = SOCKET_ERROR then
        let w := w.closesocket s
        { ret := 1, socket_out := socket_, world := w }
      else
        let q := os.inet_pton AF_INET serverIP
        let w := w.emit (Event.inet_pton AF_INET serverIP q.1)
        if q.1 ≠ 1 then
          { ret := 1, socket_out := socket_, world := w }
        else
          let destAddr : SOCKADDR :=
            { family := AF_INET, port := htons destinationPort, addr := q.2 }
          let c := os.connect 0 s destAddr sizeof_sockaddr_in
          let w := w.emit (Event.connect s destAddr sizeof_sockaddr_in c)
          if c = SOCKET_ERROR then
            let w := w.closesocket s
            { ret := 1, socket_out := socket_, world := w }
          else
            { ret := 0, socket_out := s, world := w }

/-! ## Vocabulary of the statements -/

/-- The socket the operating system hands out for candidate `c`, the `k`-th
one attempted. -/
def sockOf (os : OS) (k : Nat) (c : addrinfo) : SOCKET :=
  os.socket k c.ai_family c.ai_socktype c.ai_protocol

/-- The value of the connect attempt for candidate `c`, the `k`-th one
attempted. -/
def connOf (os : OS) (k : Nat) (c : addrinfo) : Int :=
  os.connect k (sockOf os k c) c.ai_addr c.ai_addrlen

/-- The call `socket(...)` made for candidate `c`. -/
def socketCall (os : OS) (k : Nat) (c : addrinfo) : Event :=
  Event.socket c.ai_family c.ai_socktype c.ai_protocol (sockOf os k c)

/-- The call `connect(...)` made for candidate `c`. -/
def connectCall (os : OS) (k : Nat) (c : addrinfo) : Event :=
  Event.connect (sockOf os k c) c.ai_addr c.ai_addrlen (connOf os k c)

/-- The calls of one iteration whose connect attempt fails: create, connect,
close. -/
def failedAttempt (os : OS) (k : Nat) (c : addrinfo) : List Event :=
  [socketCall os k c, connectCall os k c, Event.closesocket (sockOf os k c)]

/-- The calls of consecutive failing iterations, the first being number `k`. -/
def failedAttempts (os : OS) : Nat → List addrinfo → List Event
  | _, [] => []
  | k, c :: cs => failedAttempt os k c ++ failedAttempts os (k + 1) cs

/-- Every one of the first `j` candidates gets a socket and fails to connect;
`k` is the number of the first candidate. -/
def FailedBefore (os : OS) (k : Nat) (cands : List addrinfo) (j : Nat) : Prop :=
  ∀ i c, i < j → cands[i]? = some c →
    sockOf os (k + i) c ≠ INVALID_SOCKET ∧ connOf os (k + i) c = SOCKET_ERROR

/-- The candidates `getaddrinfo` resolves `address` and `port` to. -/
def resolved (os : OS) (address : String) (port : Nat) : List addrinfo :=
  (os.getaddrinfo address (fmt_d port) tcpHints).2

/-- The return value of `getaddrinfo` for `address` and `port`. -/
def resolveCode (os : OS) (address : String) (port : Nat) : Int :=
  (os.getaddrinfo address (fmt_d port) tcpHints).1

/-- The call `getaddrinfo(address, portString, &hints, &result)`. -/
def resolveCall (os : OS) (address : String) (port : Nat) : Event :=
  Event.getaddrinfo address (fmt_d port) tcpHints (resolveCode os address port)

/-- Whether a call creates a socket. -/
def Event.isSocket : Event → Bool
  | Event.socket _ _ _ _ => true
  | _ => false

/-- Whether a call is a `send`. -/
def Event.isSend : Event → Bool
  | Event.send _ _ _ _ _ => true
  | _ => false

/-- The socket `createUDPClientSocket` gets from `socket(...)`. -/
def udpSock (os : OS) : SOCKET := os.socket 0 AF_INET SOCK_DGRAM IPPROTO_UDP

/-- The value of `inet_pton` for the local address literal. -/
def udpLocalParse (os : OS) : Int := (os.inet_pton AF_INET "127.0.0.1").1

/-- The local address `createUDPClientSocket` binds to. -/
def udpLocalAddr (os : OS) (localPort : Nat) : SOCKADDR :=
  { family := AF_INET, port := htons localPort, addr := (os.inet_pton AF_INET "127.0.0.1").2 }

/-- The value of `bind` in `createUDPClientSocket`. -/
def udpBind (os : OS) (localPort : Nat) : Int :=
  os.bind (udpSock os) (udpLocalAddr os localPort) sizeof_sockaddr_in

/-- The value of `inet_pton` for the peer address `serverIP`. -/
def udpPeerParse (os : OS) (serverIP : String) : Int := (os.inet_pton AF_INET serverIP).1

/-- The peer address `createUDPClientSocket` connects to. -/
def udpDestAddr (os : OS) (serverIP : String) (destinationPort : Nat) : SOCKADDR :=
  { family := AF_INET, port := htons destinationPort, addr := (os.inet_pton AF_INET serverIP).2 }

/-- The value of `connect` in `createUDPClientSocket`. -/
def udpConnect (os : OS) (serverIP : String) (destinationPort : Nat) : Int :=
  os.connect 0 (udpSock os) (udpDestAddr os serverIP destinationPort) sizeof_sockaddr_in

/-- The five steps of `createUDPClientSocket`, in order: socket-create,
local-address-parse, bind, peer-address-parse, connect-peer. -/
def udpSteps (os : OS) (serverIP : String) (destinationPort localPort : Nat) : List Event :=
  [Event.socket AF_INET SOCK_DGRAM IPPROTO_UDP (udpSock os),
   Event.inet_pton AF_INET "127.0.0.1" (udpLocalParse os),
   Event.bind (udpSock os) (udpLocalAddr os localPort) sizeof_sockaddr_in
     (udpBind os localPort),
   Event.inet_pton AF_INET serverIP (udpPeerParse os serverIP),
   Event.connect (udpSock os) (udpDestAddr os serverIP destinationPort) sizeof_sockaddr_in
     (udpConnect os serverIP destinationPort)]

/-- All five steps of `createUDPClientSocket` succeed. -/
def UdpAllSucceed (os : OS) (serverIP : String) (destinationPort localPort : Nat) : Prop :=
  udpSock os ≠ INVALID_SOCKET ∧ udpLocalParse os = 1 ∧ udpBind os localPort ≠ SOCKET_ERROR ∧
    udpPeerParse os serverIP = 1 ∧ udpConnect os serverIP destinationPort ≠ SOCKET_ERROR

/-- At every socket creation among the calls `evs`, the open sockets are again
the ones that were open before `evs`. -/
def QuietAtCreation (opened : List SOCKET) (evs : List Event) : Prop :=
  ∀ pre e post, evs = pre ++ e :: post → e.isSocket = true → replay opened pre = opened

/-! ## Scenarios -/

/-- An IPv6 candidate for port 80. -/
def cand6 : addrinfo :=
  { ai_family := 23, ai_socktype := 1, ai_protocol := 6, ai_addrlen := 28,
    ai_addr := { family := 23, port := 20480, addr := 1 } }

/-- An IPv4 candidate for port 80. -/
def cand4 : addrinfo :=
  { ai_family := 2, ai_socktype := 1, ai_protocol := 6, ai_addrlen := 16,
    ai_addr := { family := 2, port := 20480, addr := 16777343 } }

/-- An operating system on which every call succeeds: resolution yields
`cand6` and `cand4`, the sockets handed out are 100, 101, ... -/
def osFine : OS :=
  { getaddrinfo := fun _ _ _ => (0, [cand6, cand4])
    socket := fun k _ _ _ => 100 + k
    connect := fun _ _ _ _ => 0
    inet_pton := fun _ src => if src = "127.0.0.1" then (1, 16777343) else (0, 0)
    bind := fun _ _ _ => 0
    send := fun _ _ len _ => len
    recv := fun _ _ _ => (0, [])
    WSAGetLastError := 0 }

/-- As `osFine`, but the first connect attempt is refused. -/
def osFirstRefused : OS :=
  { osFine with
    connect := fun k _ _ _ => if k = 0 then SOCKET_ERROR else 0
    WSAGetLastError := 10061 }

/-- As `osFine`, but no socket can be created for the first candidate (address
family not supported). -/
def osNoIPv6 : OS :=
  { osFine with
    socket := fun k _ _ _ => if k = 0 then INVALID_SOCKET else 100 + k
    WSAGetLastError := 10047 }

/-- An operating system whose resolver fails with the given code. -/
def osUnresolved (code : Int) : OS :=
  { osFine with getaddrinfo := fun _ _ _ => (code, []) }

/-- An operating system on which every connect attempt fails and the last
error is the given code. -/
def osRefused (code : Int) : OS :=
  { osFine with
    connect := fun _ _ _ _ => SOCKET_ERROR
    WSAGetLastError := code }

/-- As `osFine`, but `bind` fails (the port is in use). -/
def osBindFails : OS :=
  { osFine with
    bind := fun _ _ _ => SOCKET_ERROR
    WSAGetLastError := 10048 }

/-- As `osFine`, but `recv` fails (the connection was reset). -/
def osReset : OS :=
  { osFine with
    recv := fun _ _ _ => (SOCKET_ERROR, [])
    WSAGetLastError := 10054 }

/-- The world before anything happened. -/
def World.initial : World := { openSockets := [], trace := [] }

/-! ## The loop of `connectTCP` -/

theorem failedBefore_tail {os : OS} {k : Nat} {c : addrinfo} {cs : List addrinfo} {j : Nat}
    (h : FailedBefore os k (c :: cs) (j + 1)) : FailedBefore os (k + 1) cs j := by
  intro i d hi hd
  have := h (i + 1) d (by omega) (by simpa using hd)
  simpa [Nat.add_assoc, Nat.add_comm 1 i] using this

theorem failedBefore_head {os : OS} {k : Nat} {c : addrinfo} {cs : List addrinfo} {j : Nat}
    (h : FailedBefore os k (c :: cs) (j + 1)) :
    sockOf os k c ≠ INVALID_SOCKET ∧ connOf os k c = SOCKET_ERROR := by
  simpa using h 0 c (by omega) (by simp)

theorem failedBefore_cons {os : OS} {k : Nat} {c : addrinfo} {cs : List addrinfo} {j : Nat}
    (h0 : sockOf os k c ≠ INVALID_SOCKET) (h1 : connOf os k c = SOCKET_ERROR)
    (h : FailedBefore os (k + 1) cs j) : FailedBefore os k (c :: cs) (j + 1) := by
  intro i d hi hd
  cases i with
  | zero =>
      simp at hd
      subst hd
      exact ⟨by simpa using h0, by simpa using h1⟩
  | succ i =>
      have := h i d (by omega) (by simpa using hd)
      simpa [Nat.add_assoc, Nat.add_comm 1 i] using this

/-- One failing iteration: the socket is created, the connect attempt fails,
the socket is closed, and the loop goes on with the next candidate. -/
theorem connectLoop_step_failed (os : OS) (k : Nat) (c : addrinfo) (cs : List addrinfo)
    (cur : SOCKET) (w : World)
    (h0 : sockOf os k c ≠ INVALID_SOCKET) (h1 : connOf os k c = SOCKET_ERROR) :
    connectLoop os k (c :: cs) cur w =
      connectLoop os (k + 1) cs INVALID_SOCKET
        { openSockets := w.openSockets, trace := w.trace ++ failedAttempt os k c } := by
  unfold sockOf at h0
  unfold connOf sockOf at h1
  simp [connectLoop, h0, h1, World.socket, World.emit, World.closesocket, failedAttempt,
    socketCall, connectCall, sockOf, connOf]

/-- The loop stops with `return 1` at the first candidate for which no socket
can be created. -/
theorem connectLoop_socket_fails (os : OS) (cands : List addrinfo) :
    ∀ (k j : Nat) (c : addrinfo) (cur : SOCKET) (w : World),
      FailedBefore os k cands j → cands[j]? = some c →
      sockOf os (k + j) c = INVALID_SOCKET →
      connectLoop os k cands cur w =
        (LoopExit.returned 1,
          { openSockets := w.openSockets
            trace := w.trace ++ (failedAttempts os k (cands.take j) ++
              [socketCall os (k + j) c, Event.WSAGetLastError os.WSAGetLastError,
               Event.printf ("socket failed with error: " ++ fmt_d os.WSAGetLastError ++ "\n")]) }) := by
  induction cands with
  | nil => intro k j c cur w _ hc; simp at hc
  | cons d ds ih =>
      intro k j c cur w hb hc hs
      cases j with
      | zero =>
          simp at hc
          subst hc
          have hs' : os.socket k d.ai_family d.ai_socktype d.ai_protocol = INVALID_SOCKET := by
            simpa [sockOf] using hs
          simp [connectLoop, hs', World.socket, World.emit, failedAttempts, socketCall, sockOf]
      | succ j =>
          obtain ⟨h0, h1⟩ := failedBefore_head hb
          rw [connectLoop_step_failed os k d ds cur w h0 h1]
          rw [ih (k + 1) j c INVALID_SOCKET _ (failedBefore_tail hb) (by simpa using hc)
            (by simpa [Nat.add_assoc, Nat.add_comm 1 j] using hs)]
          simp [failedAttempts, Nat.add_assoc, Nat.add_comm 1 j]

/-- The loop stops with `break` at the first candidate whose connect attempt
succeeds, leaving that candidate's socket open. -/
theorem connectLoop_connects (os : OS) (cands : List addrinfo) :
    ∀ (k j : Nat) (c : addrinfo) (cur : SOCKET) (w : World),
      FailedBefore os k cands j → cands[j]? = some c →
      sockOf os (k + j) c ≠ INVALID_SOCKET → connOf os (k + j) c ≠ SOCKET_ERROR →
      connectLoop os k cands cur w =
        (LoopExit.finished (sockOf os (k + j) c),
          { openSockets := sockOf os (k + j) c :: w.openSockets
            trace := w.trace ++ (failedAttempts os k (cands.take j) ++
              [socketCall os (k + j) c, connectCall os (k + j) c]) }) := by
  induction cands with
  | nil => intro k j c cur w _ hc; simp at hc
  | cons d ds ih =>
      intro k j c cur w hb hc hs hn
      cases j with
      | zero =>
          simp at hc
          subst hc
          have hs' : ¬ os.socket k d.ai_family d.ai_socktype d.ai_protocol = INVALID_SOCKET := by
            simpa [sockOf] using hs
          have hn' : ¬ os.connect k (os.socket k d.ai_family d.ai_socktype d.ai_protocol)
              d.ai_addr d.ai_addrlen = SOCKET_ERROR := by
            simpa [connOf, sockOf] using hn
          simp [connectLoop, hs', hn', World.socket, World.emit, failedAttempts, socketCall,
            connectCall, sockOf, connOf]
      | succ j =>
          obtain ⟨h0, h1⟩ := failedBefore_head hb
          rw [connectLoop_step_failed os k d ds cur w h0 h1]
          rw [ih (k + 1) j c INVALID_SOCKET _ (failedBefore_tail hb) (by simpa using hc)
            (by simpa [Nat.add_assoc, Nat.add_comm 1 j] using hs)
            (by simpa [Nat.add_assoc, Nat.add_comm 1 j] using hn)]
          simp [failedAttempts, Nat.add_assoc, Nat.add_comm 1 j]

/-- When every connect attempt fails the loop runs off the end of the list
with every socket closed again. -/
theorem connectLoop_exhausted (os : OS) (cands : List addrinfo) :
    ∀ (k : Nat) (w : World), FailedBefore os k cands cands.length →
      connectLoop os k cands INVALID_SOCKET w =
        (LoopExit.finished INVALID_SOCKET,
          { openSockets := w.openSockets
            trace := w.trace ++ failedAttempts os k cands }) := by
  induction cands with
  | nil => intro k w _; simp [connectLoop, failedAttempts]
  | cons d ds ih =>
      intro k w hb
      obtain ⟨h0, h1⟩ := failedBefore_head hb
      rw [connectLoop_step_failed os k d ds _ w h0 h1]
      rw [ih (k + 1) _ (failedBefore_tail hb)]
      simp [failedAttempts]

/-- Every run of the loop falls under one of the three lemmas above. -/
theorem connectLoop_cases (os : OS) (cands : List addrinfo) :
    ∀ k : Nat,
      (∃ j c, FailedBefore os k cands j ∧ cands[j]? = some c ∧
          sockOf os (k + j) c = INVALID_SOCKET) ∨
      (∃ j c, FailedBefore os k cands j ∧ cands[j]? = some c ∧
          sockOf os (k + j) c ≠ INVALID_SOCKET ∧ connOf os (k + j) c ≠ SOCKET_ERROR) ∨
      FailedBefore os k cands cands.length := by
  induction cands with
  | nil =>
      intro k
      right; right
      intro i c hi; simp at hi
  | cons d ds ih =>
      intro k
      have hnone : FailedBefore os k (d :: ds) 0 := by intro i c hi; omega
      by_cases h0 : sockOf os k d = INVALID_SOCKET
      · left
        exact ⟨0, d, hnone, by simp, by simpa using h0⟩
      by_cases h1 : connOf os k d = SOCKET_ERROR
      · rcases ih (k + 1) with ⟨j, c, hb, hc, hs⟩ | ⟨j, c, hb, hc, hs, hn⟩ | hb
        · left
          exact ⟨j + 1, c, failedBefore_cons h0 h1 hb, by simpa using hc,
            by simpa [Nat.add_assoc, Nat.add_comm 1 j] using hs⟩
        · right; left
          exact ⟨j + 1, c, failedBefore_cons h0 h1 hb, by simpa using hc,
            by simpa [Nat.add_assoc, Nat.add_comm 1 j] using hs,
            by simpa [Nat.add_assoc, Nat.add_comm 1 j] using hn⟩
        · right; right
          exact failedBefore_cons h0 h1 hb
      · right; left
        exact ⟨0, d, hnone, by simp, by simpa using h0, by simpa using h1⟩

/-! ## The four ways through `connectTCP` -/

/-- Resolution fails: the code is printed and `1` is returned. -/
theorem connectTCP_of_unresolved (os : OS) (address : String) (port : Nat) (out : Nat)
    (w : World) (h : resolveCode os address port ≠ 0) :
    connectTCP os address port out w =
      { ret := 1, socket_out := out
        world :=
          { openSockets := w.openSockets
            trace := w.trace ++ [resolveCall os address port,
              Event.printf ("getaddrinfo failed with error: " ++
                fmt_d (resolveCode os address port) ++ "\n")] } } := by
  unfold resolveCode at h
  simp [connectTCP, h, World.emit, resolveCall, resolveCode]

/-- A socket cannot be created for candidate `j`, all earlier connect attempts
having failed: `1` is returned from inside the loop. -/
theorem connectTCP_of_socket_fails (os : OS) (address : String) (port : Nat) (out : Nat)
    (w : World) (j : Nat) (c : addrinfo)
    (h : resolveCode os address port = 0)
    (hb : FailedBefore os 0 (resolved os address port) j)
    (hc : (resolved os address port)[j]? = some c)
    (hs : sockOf os j c = INVALID_SOCKET) :
    connectTCP os address port out w =
      { ret := 1, socket_out := out
        world :=
          { openSockets := w.openSockets
            trace := w.trace ++ (resolveCall os address port ::
              (failedAttempts os 0 ((resolved os address port).take j) ++
                [socketCall os j c, Event.WSAGetLastError os.WSAGetLastError,
                 Event.printf ("socket failed with error: " ++
                   fmt_d os.WSAGetLastError ++ "\n")])) } } := by
  have hl := connectLoop_socket_fails os (resolved os address port) 0 j c INVALID_SOCKET
    (w.emit (resolveCall os address port)) hb hc (by simpa using hs)
  unfold resolveCode at h
  unfold resolved resolveCall resolveCode at hl
  simp only [h, Nat.zero_add] at hl
  simp only [connectTCP, h, ne_eq, not_true_eq_false, if_false, hl]
  simp [World.emit, resolveCall, resolveCode, resolved, h]

/-- Candidate `j` is the first to connect: `0` is returned with its socket. -/
theorem connectTCP_of_connects (os : OS) (address : String) (port : Nat) (out : Nat)
    (w : World) (j : Nat) (c : addrinfo)
    (h : resolveCode os address port = 0)
    (hb : FailedBefore os 0 (resolved os address port) j)
    (hc : (resolved os address port)[j]? = some c)
    (hs : sockOf os j c ≠ INVALID_SOCKET) (hn : connOf os j c ≠ SOCKET_ERROR) :
    connectTCP os address port out w =
      { ret := 0, socket_out := sockOf os j c
        world :=
          { openSockets := sockOf os j c :: w.openSockets
            trace := w.trace ++ (resolveCall os address port ::
              (failedAttempts os 0 ((resolved os address port).take j) ++
                [socketCall os j c, connectCall os j c, Event.freeaddrinfo])) } } := by
  have hl := connectLoop_connects os (resolved os address port) 0 j c INVALID_SOCKET
    (w.emit (resolveCall os address port)) hb hc (by simpa using hs) (by simpa using hn)
  unfold resolveCode at h
  unfold resolved resolveCall resolveCode at hl
  simp only [h, Nat.zero_add] at hl
  simp only [connectTCP, h, ne_eq, not_true_eq_false, if_false, hl]
  simp [World.emit, resolveCall, resolveCode, resolved, hs, h]

/-- Every connect attempt fails: `1` is returned after the loop. -/
theorem connectTCP_of_exhausted (os : OS) (address : String) (port : Nat) (out : Nat)
    (w : World)
    (h : resolveCode os address port = 0)
    (hb : FailedBefore os 0 (resolved os address port) (resolved os address port).length) :
    connectTCP os address port out w =
      { ret := 1, socket_out := out
        world :=
          { openSockets := w.openSockets
            trace := w.trace ++ (resolveCall os address port ::
              (failedAttempts os 0 (resolved os address port) ++ [Event.freeaddrinfo])) } } := by
  have hl := connectLoop_exhausted os (resolved os address port) 0
    (w.emit (resolveCall os address port)) hb
  unfold resolveCode at h
  unfold resolved resolveCall resolveCode at hl
  simp only [h, Nat.zero_add] at hl
  simp only [connectTCP, h, ne_eq, not_true_eq_false, if_false, hl]
  simp [World.emit, resolveCall, resolveCode, resolved, h]

/-! ## `connectTCP`: the first candidate that connects wins -/

/-- C1: when resolution succeeds, a socket can be created for every candidate
up to `k`, the connect attempts of the candidates before `k` fail and the one
of candidate `k` succeeds, `connectTCP` returns 0, stores the socket created
for candidate `k` in `*socket_out`, and the calls it made are, in this order:
`getaddrinfo`; create, connect, close for each of the candidates `0..k-1` in
resolution order; create and connect for candidate `k`; `freeaddrinfo`.
Nothing is done for a candidate after `k`. -/
theorem connectTCP_first_success (os : OS) (address : String) (port : Nat) (out : Nat)
    (w : World) (k : Nat) (ck : addrinfo)
    (hres : resolveCode os address port = 0)
    (hk : (resolved os address port)[k]? = some ck)
    (hsock : ∀ i c, i ≤ k → (resolved os address port)[i]? = some c →
      sockOf os i c ≠ INVALID_SOCKET)
    (hfail : ∀ i c, i < k → (resolved os address port)[i]? = some c →
      connOf os i c = SOCKET_ERROR)
    (hok : connOf os k ck ≠ SOCKET_ERROR) :
    (connectTCP os address port out w).ret = 0 ∧
    (connectTCP os address port out w).socket_out = sockOf os k ck ∧
    (connectTCP os address port out w).world.trace =
      w.trace ++ (resolveCall os address port ::
        (failedAttempts os 0 ((resolved os address port).take k) ++
          [socketCall os k ck, connectCall os k ck, Event.freeaddrinfo])) := by
  have hb : FailedBefore os 0 (resolved os address port) k := by
    intro i c hi hc
    simpa using And.intro (hsock i c (by omega) hc) (hfail i c hi hc)
  rw [connectTCP_of_connects os address port out w k ck hres hb hk (hsock k ck le_rfl hk) hok]
  exact ⟨rfl, rfl, rfl⟩

/-- C1, at a concrete run: the first of two candidates is refused, the second
connects. -/
theorem connectTCP_first_success_witness :
    (connectTCP osFirstRefused "localhost" 80 0 World.initial).ret = 0 ∧
    (connectTCP osFirstRefused "localhost" 80 0 World.initial).socket_out =
      sockOf osFirstRefused 1 cand4 ∧
    (connectTCP osFirstRefused "localhost" 80 0 World.initial).world.trace =
      World.initial.trace ++ (resolveCall osFirstRefused "localhost" 80 ::
        (failedAttempts osFirstRefused 0 ((resolved osFirstRefused "localhost" 80).take 1) ++
          [socketCall osFirstRefused 1 cand4, connectCall osFirstRefused 1 cand4,
           Event.freeaddrinfo])) :=
  connectTCP_first_success osFirstRefused "localhost" 80 0 World.initial 1 cand4
    (by decide) (by decide)
    (by
      intro i c hi _
      show 100 + i ≠ 18446744073709551615
      omega)
    (by
      intro i c hi _
      have h0 : i = 0 := by omega
      subst h0
      rfl)
    (by decide)

/-- C2, refuted as stated: resolution succeeds and the second candidate can be
given a socket and connected, yet `connectTCP` returns 1, because no socket
could be created for the first candidate; the second one is never tried. -/
theorem connectTCP_gives_up_on_socket_failure :
    resolveCode osNoIPv6 "localhost" 80 = 0 ∧
    (resolved osNoIPv6 "localhost" 80)[1]? = some cand4 ∧
    sockOf osNoIPv6 1 cand4 ≠ INVALID_SOCKET ∧
    connOf osNoIPv6 1 cand4 ≠ SOCKET_ERROR ∧
    connectTCP osNoIPv6 "localhost" 80 0 World.initial =
      { ret := 1, socket_out := 0
        world :=
          { openSockets := []
            trace := [Event.getaddrinfo "localhost" "80" tcpHints 0,
              Event.socket 23 1 6 INVALID_SOCKET,
              Event.WSAGetLastError 10047,
              Event.printf "socket failed with error: 10047\n"] } } := by
  decide

/-- C2, amended: `connectTCP` returns non-zero only when resolution fails, or
no socket can be created for a candidate it reaches, or every candidate's
connect attempt has failed; and whenever resolution succeeds and some
candidate connects, a socket having been created for it and for every
candidate before it, `connectTCP` returns 0 with an open socket. -/
theorem connectTCP_failure_causes (os : OS) (address : String) (port : Nat) (out : Nat)
    (w : World) :
    ((connectTCP os address port out w).ret ≠ 0 →
      resolveCode os address port ≠ 0 ∨
      (∃ j c, FailedBefore os 0 (resolved os address port) j ∧
        (resolved os address port)[j]? = some c ∧ sockOf os j c = INVALID_SOCKET) ∨
      FailedBefore os 0 (resolved os address port) (resolved os address port).length) ∧
    (∀ j c, resolveCode os address port = 0 →
      (resolved os address port)[j]? = some c →
      (∀ i d, i ≤ j → (resolved os address port)[i]? = some d →
        sockOf os i d ≠ INVALID_SOCKET) →
      connOf os j c ≠ SOCKET_ERROR →
      (connectTCP os address port out w).ret = 0 ∧
      (connectTCP os address port out w).socket_out ≠ INVALID_SOCKET ∧
      (connectTCP os address port out w).socket_out ∈
        (connectTCP os address port out w).world.openSockets) := by
  by_cases hres : resolveCode os address port = 0
  · rcases connectLoop_cases os (resolved os address port) 0 with
      ⟨j, c, hb, hc, hs⟩ | ⟨j, c, hb, hc, hs, hn⟩ | hb
    · refine ⟨fun _ => Or.inr (Or.inl ⟨j, c, hb, hc, by simpa using hs⟩), ?_⟩
      intro j' c' _ hc' hsock hok
      exfalso
      rcases Nat.lt_or_ge j' j with hlt | hge
      · exact hok (by simpa using (hb j' c' hlt hc').2)
      · exact hsock j c hge hc (by simpa using hs)
    · have hs' : sockOf os j c ≠ INVALID_SOCKET := by simpa using hs
      have hn' : connOf os j c ≠ SOCKET_ERROR := by simpa using hn
      rw [connectTCP_of_connects os address port out w j c hres hb hc hs' hn']
      refine ⟨fun h => absurd rfl h, ?_⟩
      intro j' c' _ _ _ _
      exact ⟨rfl, hs', List.mem_cons_self _ _⟩
    · refine ⟨fun _ => Or.inr (Or.inr hb), ?_⟩
      intro j' c' _ hc' _ hok
      exfalso
      have hlt : j' < (resolved os address port).length := by
        rcases List.getElem?_eq_some_iff.mp hc' with ⟨h, _⟩
        exact h
      exact hok (by simpa using (hb j' c' hlt hc').2)
  · refine ⟨fun _ => Or.inl hres, ?_⟩
    intro j c h
    exact absurd h hres

/-- C2, amended, at a concrete run: the first candidate is refused, the second
connects. -/
theorem connectTCP_failure_causes_witness :
    (connectTCP osFirstRefused "localhost" 80 0 World.initial).ret = 0 ∧
    (connectTCP osFirstRefused "localhost" 80 0 World.initial).socket_out ≠ INVALID_SOCKET ∧
    (connectTCP osFirstRefused "localhost" 80 0 World.initial).socket_out ∈
      (connectTCP osFirstRefused "localhost" 80 0 World.initial).world.openSockets :=
  (connectTCP_failure_causes osFirstRefused "localhost" 80 0 World.initial).2 1 cand4
    (by decide) (by decide)
    (by
      intro i d hi _
      show 100 + i ≠ 18446744073709551615
      omega)
    (by decide)

/-! ## `connectTCP`: what a failure tells the caller -/

/-- C8, refuted as stated: two runs in which resolution fails with different
codes return the same value, and so do two runs in which every connect
attempt fails and the last native error codes differ. -/
theorem connectTCP_same_value_for_different_codes :
    resolveCode (osUnresolved 11001) "nowhere.invalid" 80 = 11001 ∧
    resolveCode (osUnresolved 11002) "nowhere.invalid" 80 = 11002 ∧
    (connectTCP (osUnresolved 11001) "nowhere.invalid" 80 0 World.initial).ret =
      (connectTCP (osUnresolved 11002) "nowhere.invalid" 80 0 World.initial).ret ∧
    (osRefused 10061).WSAGetLastError ≠ (osRefused 10060).WSAGetLastError ∧
    (connectTCP (osRefused 10061) "localhost" 80 0 World.initial).ret = 1 ∧
    connectTCP (osRefused 10061) "localhost" 80 0 World.initial =
      connectTCP (osRefused 10060) "localhost" 80 0 World.initial := by
  decide

/-- C8, amended: `connectTCP` returns 0 or 1 and nothing else.  When
resolution fails it returns 1 and the resolver's code is only printed; when
every candidate's connect attempt fails it returns 1 and the native error code
is not even asked for (no `WSAGetLastError` call is made). -/
theorem connectTCP_failure_value (os : OS) (address : String) (port : Nat) (out : Nat)
    (w : World) :
    ((connectTCP os address port out w).ret = 0 ∨
      (connectTCP os address port out w).ret = 1) ∧
    (resolveCode os address port ≠ 0 →
      connectTCP os address port out w =
        { ret := 1, socket_out := out
          world :=
            { openSockets := w.openSockets
              trace := w.trace ++ [resolveCall os address port,
                Event.printf ("getaddrinfo failed with error: " ++
                  fmt_d (resolveCode os address port) ++ "\n")] } }) ∧
    (resolveCode os address port = 0 →
      FailedBefore os 0 (resolved os address port) (resolved os address port).length →
      connectTCP os address port out w =
        { ret := 1, socket_out := out
          world :=
            { openSockets := w.openSockets
              trace := w.trace ++ (resolveCall os address port ::
                (failedAttempts os 0 (resolved os address port) ++
                  [Event.freeaddrinfo])) } }) := by
  refine ⟨?_, connectTCP_of_unresolved os address port out w,
    connectTCP_of_exhausted os address port out w⟩
  by_cases hres : resolveCode os address port = 0
  · rcases connectLoop_cases os (resolved os address port) 0 with
      ⟨j, c, hb, hc, hs⟩ | ⟨j, c, hb, hc, hs, hn⟩ | hb
    · rw [connectTCP_of_socket_fails os address port out w j c hres hb hc (by simpa using hs)]
      exact Or.inr rfl
    · rw [connectTCP_of_connects os address port out w j c hres hb hc (by simpa using hs)
        (by simpa using hn)]
      exact Or.inl rfl
    · rw [connectTCP_of_exhausted os address port out w hres hb]
      exact Or.inr rfl
  · rw [connectTCP_of_unresolved os address port out w hres]
    exact Or.inr rfl

/-- C8, amended, at a concrete run: the resolver fails with code 11001. -/
theorem connectTCP_failure_value_witness :
    connectTCP (osUnresolved 11001) "nowhere.invalid" 80 0 World.initial =
      { ret := 1, socket_out := 0
        world :=
          { openSockets := World.initial.openSockets
            trace := World.initial.trace ++
              [resolveCall (osUnresolved 11001) "nowhere.invalid" 80,
                Event.printf ("getaddrinfo failed with error: " ++
                  fmt_d (resolveCode (osUnresolved 11001) "nowhere.invalid" 80) ++ "\n")] } } :=
  (connectTCP_failure_value (osUnresolved 11001) "nowhere.invalid" 80 0 World.initial).2.1
    (by decide)

/-! ## `connectTCP`: sockets of failed candidates are closed -/

theorem replay_append (o : List SOCKET) (a b : List Event) :
    replay o (a ++ b) = replay (replay o a) b := by
  induction a generalizing o with
  | nil => rfl
  | cons e a ih => cases e <;> simp [replay, ih]

theorem replay_failedAttempt (os : OS) (k : Nat) (c : addrinfo) (o : List SOCKET)
    (h : sockOf os k c ≠ INVALID_SOCKET) : replay o (failedAttempt os k c) = o := by
  simp [failedAttempt, socketCall, connectCall, replay, h]

theorem replay_failedAttempts (os : OS) (cs : List addrinfo) :
    ∀ (k : Nat) (o : List SOCKET), FailedBefore os k cs cs.length →
      replay o (failedAttempts os k cs) = o := by
  induction cs with
  | nil => intro k o _; rfl
  | cons c cs ih =>
      intro k o hb
      rw [failedAttempts, replay_append, replay_failedAttempt os k c o (failedBefore_head hb).1]
      exact ih (k + 1) o (failedBefore_tail hb)

theorem failedBefore_take {os : OS} {k : Nat} {cs : List addrinfo} {j : Nat}
    (hb : FailedBefore os k cs j) : FailedBefore os k (cs.take j) (cs.take j).length := by
  intro i c hi hc
  have hij : i < j := by
    have := List.length_take_le j cs
    omega
  rw [List.getElem?_take_of_lt hij] at hc
  exact hb i c hij hc

theorem quiet_cons {o : List SOCKET} {e : Event} {evs : List Event}
    (he : replay o [e] = o) (h : QuietAtCreation o evs) : QuietAtCreation o (e :: evs) := by
  intro pre x post hsplit hx
  cases pre with
  | nil => rfl
  | cons p pre =>
      simp only [List.cons_append, List.cons.injEq] at hsplit
      obtain ⟨rfl, hrest⟩ := hsplit
      have : replay o (e :: pre) = replay (replay o [e]) pre := replay_append o [e] pre
      rw [this, he]
      exact h pre x post hrest hx

theorem quiet_cons_of_no_creation {o : List SOCKET} {e : Event} {evs : List Event}
    (h : ∀ x ∈ evs, x.isSocket = false) : QuietAtCreation o (e :: evs) := by
  intro pre x post hsplit hx
  cases pre with
  | nil => rfl
  | cons p pre =>
      simp only [List.cons_append, List.cons.injEq] at hsplit
      have hmem : x ∈ evs := by rw [hsplit.2]; simp
      rw [h x hmem] at hx
      cases hx

theorem quiet_append {o : List SOCKET} {a b : List Event}
    (ha : replay o a = o) (hqa : QuietAtCreation o a) (hqb : QuietAtCreation o b) :
    QuietAtCreation o (a ++ b) := by
  intro pre x post hsplit hx
  rcases List.append_eq_append_iff.mp hsplit with ⟨a', hpre, hb⟩ | ⟨c', ha', hc⟩
  · rw [hpre, replay_append, ha]
    exact hqb a' x post hb hx
  · cases c' with
    | nil =>
        simp only [List.append_nil] at ha'
        rw [← ha', ha]
    | cons y c' =>
        simp only [List.cons_append, List.cons.injEq] at hc
        obtain ⟨rfl, _⟩ := hc
        exact hqa pre x c' ha' hx

theorem quiet_failedAttempts (os : OS) (cs : List addrinfo) :
    ∀ (k : Nat) (o : List SOCKET), FailedBefore os k cs cs.length →
      QuietAtCreation o (failedAttempts os k cs) := by
  induction cs with
  | nil =>
      intro k o _ pre x post hsplit
      simp [failedAttempts] at hsplit
  | cons c cs ih =>
      intro k o hb
      rw [failedAttempts]
      refine quiet_append (replay_failedAttempt os k c o (failedBefore_head hb).1) ?_
        (ih (k + 1) o (failedBefore_tail hb))
      apply quiet_cons_of_no_creation
      intro x hx
      simp only [List.mem_cons, List.mem_singleton, List.not_mem_nil, or_false] at hx
      rcases hx with rfl | rfl <;> rfl

/-- C3: in every run of `connectTCP`, with `evs` the calls it makes: at each
socket creation the open sockets are exactly the ones that were open before
the call, so every socket created for an earlier candidate has been closed by
then; on a non-zero return the open sockets are the ones from before the call
and `*socket_out` is unchanged; on return 0 the one additional open socket is
the one written to `*socket_out`, which was created during the call. -/
theorem connectTCP_closes_failed_candidates (os : OS) (address : String) (port : Nat)
    (out : Nat) (w : World) :
    ∃ evs : List Event,
      (connectTCP os address port out w).world.trace = w.trace ++ evs ∧
      (connectTCP os address port out w).world.openSockets = replay w.openSockets evs ∧
      (∀ pre e post, evs = pre ++ e :: post → e.isSocket = true →
        replay w.openSockets pre = w.openSockets) ∧
      ((connectTCP os address port out w).ret ≠ 0 →
        (connectTCP os address port out w).world.openSockets = w.openSockets ∧
        (connectTCP os address port out w).socket_out = out) ∧
      ((connectTCP os address port out w).ret = 0 →
        (connectTCP os address port out w).world.openSockets =
          (connectTCP os address port out w).socket_out :: w.openSockets ∧
        (connectTCP os address port out w).socket_out ≠ INVALID_SOCKET ∧
        ∃ af ty pr,
          Event.socket af ty pr (connectTCP os address port out w).socket_out ∈ evs) := by
  have hres0 : ∀ o : List SOCKET, replay o [resolveCall os address port] = o := fun _ => rfl
  by_cases hres : resolveCode os address port = 0
  · rcases connectLoop_cases os (resolved os address port) 0 with
      ⟨j, c, hb, hc, hs⟩ | ⟨j, c, hb, hc, hs, hn⟩ | hb
    · have hs' : sockOf os j c = INVALID_SOCKET := by simpa using hs
      rw [connectTCP_of_socket_fails os address port out w j c hres hb hc hs']
      have hfa := replay_failedAttempts os _ 0 w.openSockets (failedBefore_take hb)
      refine ⟨_, rfl, ?_, ?_, fun _ => ⟨rfl, rfl⟩, fun h => absurd h (show (1 : Int) ≠ 0 by decide)⟩
      · show w.openSockets = replay w.openSockets (_ :: _)
        rw [show ∀ (e : Event) (l : List Event), e :: l = [e] ++ l from fun _ _ => rfl,
          replay_append, hres0, replay_append, hfa]
        simp [replay, socketCall, hs']
      · refine quiet_cons (hres0 _) (quiet_append hfa
          (quiet_failedAttempts os _ 0 w.openSockets (failedBefore_take hb)) ?_)
        apply quiet_cons_of_no_creation
        intro x hx
        simp only [List.mem_cons, List.mem_singleton, List.not_mem_nil, or_false] at hx
        rcases hx with rfl | rfl <;> rfl
    · have hs' : sockOf os j c ≠ INVALID_SOCKET := by simpa using hs
      have hn' : connOf os j c ≠ SOCKET_ERROR := by simpa using hn
      rw [connectTCP_of_connects os address port out w j c hres hb hc hs' hn']
      have hfa := replay_failedAttempts os _ 0 w.openSockets (failedBefore_take hb)
      refine ⟨_, rfl, ?_, ?_, fun h => absurd rfl h, fun _ => ⟨rfl, hs', ?_⟩⟩
      · show sockOf os j c :: w.openSockets = replay w.openSockets (_ :: _)
        rw [show ∀ (e : Event) (l : List Event), e :: l = [e] ++ l from fun _ _ => rfl,
          replay_append, hres0, replay_append, hfa]
        simp [replay, socketCall, connectCall, hs']
      · refine quiet_cons (hres0 _) (quiet_append hfa
          (quiet_failedAttempts os _ 0 w.openSockets (failedBefore_take hb)) ?_)
        apply quiet_cons_of_no_creation
        intro x hx
        simp only [List.mem_cons, List.mem_singleton, List.not_mem_nil, or_false] at hx
        rcases hx with rfl | rfl <;> rfl
      · exact ⟨c.ai_family, c.ai_socktype, c.ai_protocol, by simp [socketCall]⟩
    · rw [connectTCP_of_exhausted os address port out w hres hb]
      have hfa := replay_failedAttempts os _ 0 w.openSockets hb
      refine ⟨_, rfl, ?_, ?_, fun _ => ⟨rfl, rfl⟩, fun h => absurd h (show (1 : Int) ≠ 0 by decide)⟩
      · show w.openSockets = replay w.openSockets (_ :: _)
        rw [show ∀ (e : Event) (l : List Event), e :: l = [e] ++ l from fun _ _ => rfl,
          replay_append, hres0, replay_append, hfa]
        rfl
      · refine quiet_cons (hres0 _) (quiet_append hfa
          (quiet_failedAttempts os _ 0 w.openSockets hb) ?_)
        intro pre x post hsplit hx
        cases pre with
        | nil => rfl
        | cons p pre => simp at hsplit
  · rw [connectTCP_of_unresolved os address port out w hres]
    refine ⟨_, rfl, rfl, ?_, fun _ => ⟨rfl, rfl⟩, fun h => absurd h (show (1 : Int) ≠ 0 by decide)⟩
    refine quiet_cons (hres0 _) ?_
    apply quiet_cons_of_no_creation
    intro x hx
    simp at hx

/-- C3, at a concrete run: the first of two candidates is refused and its
socket closed, the second connects; its socket 101 is the only one left
open. -/
theorem connectTCP_closes_failed_candidates_witness :
    (connectTCP osFirstRefused "localhost" 80 0 World.initial).ret = 0 ∧
    (connectTCP osFirstRefused "localhost" 80 0 World.initial).world.openSockets =
      (connectTCP osFirstRefused "localhost" 80 0 World.initial).socket_out ::
        World.initial.openSockets ∧
    (connectTCP osFirstRefused "localhost" 80 0 World.initial).world.openSockets = [101] := by
  obtain ⟨_, _, _, _, _, h⟩ :=
    connectTCP_closes_failed_candidates osFirstRefused "localhost" 80 0 World.initial
  exact ⟨by decide, (h (by decide)).1, by decide⟩

/-! ## `createUDPClientSocket` -/

/-- The six ways through `createUDPClientSocket`, one for each first failing
step and one for success. -/
theorem createUDPClientSocket_cases (os : OS) (serverIP : String)
    (destinationPort localPort : Nat) (out : Nat) (w : World) :
    (udpSock os = INVALID_SOCKET →
      createUDPClientSocket os serverIP destinationPort localPort out w =
        { ret := 1, socket_out := out
          world :=
            { openSockets := w.openSockets
              trace := w.trace ++ (udpSteps os serverIP destinationPort localPort).take 1 } }) ∧
    (udpSock os ≠ INVALID_SOCKET → udpLocalParse os ≠ 1 →
      createUDPClientSocket os serverIP destinationPort localPort out w =
        { ret := 1, socket_out := out
          world :=
            { openSockets := udpSock os :: w.openSockets
              trace := w.trace ++ (udpSteps os serverIP destinationPort localPort).take 2 } }) ∧
    (udpSock os ≠ INVALID_SOCKET → udpLocalParse os = 1 → udpBind os localPort = SOCKET_ERROR →
      createUDPClientSocket os serverIP destinationPort localPort out w =
        { ret := 1, socket_out := out
          world :=
            { openSockets := w.openSockets
              trace := w.trace ++ ((udpSteps os serverIP destinationPort localPort).take 3 ++
                [Event.closesocket (udpSock os)]) } }) ∧
    (udpSock os ≠ INVALID_SOCKET → udpLocalParse os = 1 → udpBind os localPort ≠ SOCKET_ERROR →
      udpPeerParse os serverIP ≠ 1 →
      createUDPClientSocket os serverIP destinationPort localPort out w =
        { ret := 1, socket_out := out
          world :=
            { openSockets := udpSock os :: w.openSockets
              trace := w.trace ++ (udpSteps os serverIP destinationPort localPort).take 4 } }) ∧
    (udpSock os ≠ INVALID_SOCKET → udpLocalParse os = 1 → udpBind os localPort ≠ SOCKET_ERROR →
      udpPeerParse os serverIP = 1 → udpConnect os serverIP destinationPort = SOCKET_ERROR →
      createUDPClientSocket os serverIP destinationPort localPort out w =
        { ret := 1, socket_out := out
          world :=
            { openSockets := w.openSockets
              trace := w.trace ++ (udpSteps os serverIP destinationPort localPort ++
                [Event.closesocket (udpSock os)]) } }) ∧
    (UdpAllSucceed os serverIP destinationPort localPort →
      createUDPClientSocket os serverIP destinationPort localPort out w =
        { ret := 0, socket_out := udpSock os
          world :=
            { openSockets := udpSock os :: w.openSockets
              trace := w.trace ++ udpSteps os serverIP destinationPort localPort } }) := by
  unfold UdpAllSucceed udpConnect udpBind udpPeerParse udpLocalParse udpSock
  refine ⟨?_, ?_, ?_, ?_, ?_, ?_⟩
  · intro h1
    simp [createUDPClientSocket, h1, World.socket, udpSteps, udpSock]
  · intro h1 h2
    simp [createUDPClientSocket, h1, h2, World.socket, World.emit, udpSteps, udpSock,
      udpLocalParse]
  · intro h1 h2 h3
    unfold udpLocalAddr at h3
    simp [createUDPClientSocket, h1, h2, h3, World.socket, World.emit, World.closesocket,
      udpSteps, udpSock, udpLocalParse, udpBind, udpLocalAddr]
  · intro h1 h2 h3 h4
    unfold udpLocalAddr at h3
    simp [createUDPClientSocket, h1, h2, h3, h4, World.socket, World.emit, udpSteps, udpSock,
      udpLocalParse, udpBind, udpLocalAddr, udpPeerParse]
  · intro h1 h2 h3 h4 h5
    unfold udpLocalAddr at h3
    unfold udpDestAddr at h5
    simp [createUDPClientSocket, h1, h2, h3, h4, h5, World.socket, World.emit,
      World.closesocket, udpSteps, udpSock, udpLocalParse, udpBind, udpLocalAddr, udpPeerParse,
      udpConnect, udpDestAddr]
  · rintro ⟨h1, h2, h3, h4, h5⟩
    unfold udpLocalAddr at h3
    unfold udpDestAddr at h5
    simp [createUDPClientSocket, h1, h2, h3, h4, h5, World.socket, World.emit, udpSteps,
      udpSock, udpLocalParse, udpBind, udpLocalAddr, udpPeerParse, udpConnect, udpDestAddr]

/-- The value returned and the socket stored by `createUDPClientSocket`. -/
theorem createUDPClientSocket_ret (os : OS) (serverIP : String)
    (destinationPort localPort : Nat) (out : Nat) (w : World) :
    (UdpAllSucceed os serverIP destinationPort localPort →
      (createUDPClientSocket os serverIP destinationPort localPort out w).ret = 0 ∧
      (createUDPClientSocket os serverIP destinationPort localPort out w).socket_out =
        udpSock os) ∧
    (¬ UdpAllSucceed os serverIP destinationPort localPort →
      (createUDPClientSocket os serverIP destinationPort localPort out w).ret = 1 ∧
      (createUDPClientSocket os serverIP destinationPort localPort out w).socket_out = out) := by
  obtain ⟨c1, c2, c3, c4, c5, c6⟩ :=
    createUDPClientSocket_cases os serverIP destinationPort localPort out w
  constructor
  · intro h
    rw [c6 h]
    exact ⟨rfl, rfl⟩
  · intro h
    by_cases h1 : udpSock os = INVALID_SOCKET
    · rw [c1 h1]; exact ⟨rfl, rfl⟩
    by_cases h2 : udpLocalParse os = 1
    swap
    · rw [c2 h1 h2]; exact ⟨rfl, rfl⟩
    by_cases h3 : udpBind os localPort = SOCKET_ERROR
    · rw [c3 h1 h2 h3]; exact ⟨rfl, rfl⟩
    by_cases h4 : udpPeerParse os serverIP = 1
    swap
    · rw [c4 h1 h2 h3 h4]; exact ⟨rfl, rfl⟩
    by_cases h5 : udpConnect os serverIP destinationPort = SOCKET_ERROR
    · rw [c5 h1 h2 h3 h4 h5]; exact ⟨rfl, rfl⟩
    · exact absurd ⟨h1, h2, h3, h4, h5⟩ h

/-- C4: `createUDPClientSocket` makes the calls socket-create,
local-address-parse of `127.0.0.1`, bind, peer-address-parse of `serverIP`,
connect in this order and stops at the first one that fails (after a failed
bind or connect it only closes the socket); it returns 0 exactly when all five
succeed, then `*socket_` holds the socket of the first step, and on a non-zero
return `*socket_` is unchanged. -/
theorem createUDPClientSocket_steps_in_order (os : OS) (serverIP : String)
    (destinationPort localPort : Nat) (out : Nat) (w : World) :
    (udpSock os = INVALID_SOCKET →
      (createUDPClientSocket os serverIP destinationPort localPort out w).world.trace =
        w.trace ++ (udpSteps os serverIP destinationPort localPort).take 1) ∧
    (udpSock os ≠ INVALID_SOCKET → udpLocalParse os ≠ 1 →
      (createUDPClientSocket os serverIP destinationPort localPort out w).world.trace =
        w.trace ++ (udpSteps os serverIP destinationPort localPort).take 2) ∧
    (udpSock os ≠ INVALID_SOCKET → udpLocalParse os = 1 → udpBind os localPort = SOCKET_ERROR →
      (createUDPClientSocket os serverIP destinationPort localPort out w).world.trace =
        w.trace ++ ((udpSteps os serverIP destinationPort localPort).take 3 ++
          [Event.closesocket (udpSock os)])) ∧
    (udpSock os ≠ INVALID_SOCKET → udpLocalParse os = 1 → udpBind os localPort ≠ SOCKET_ERROR →
      udpPeerParse os serverIP ≠ 1 →
      (createUDPClientSocket os serverIP destinationPort localPort out w).world.trace =
        w.trace ++ (udpSteps os serverIP destinationPort localPort).take 4) ∧
    (udpSock os ≠ INVALID_SOCKET → udpLocalParse os = 1 → udpBind os localPort ≠ SOCKET_ERROR →
      udpPeerParse os serverIP = 1 → udpConnect os serverIP destinationPort = SOCKET_ERROR →
      (createUDPClientSocket os serverIP destinationPort localPort out w).world.trace =
        w.trace ++ (udpSteps os serverIP destinationPort localPort ++
          [Event.closesocket (udpSock os)])) ∧
    (UdpAllSucceed os serverIP destinationPort localPort →
      (createUDPClientSocket os serverIP destinationPort localPort out w).world.trace =
        w.trace ++ udpSteps os serverIP destinationPort localPort) ∧
    ((createUDPClientSocket os serverIP destinationPort localPort out w).ret = 0 ↔
      UdpAllSucceed os serverIP destinationPort localPort) ∧
    ((createUDPClientSocket os serverIP destinationPort localPort out w).ret = 0 →
      (createUDPClientSocket os serverIP destinationPort localPort out w).socket_out =
        udpSock os) ∧
    ((createUDPClientSocket os serverIP destinationPort localPort out w).ret ≠ 0 →
      (createUDPClientSocket os serverIP destinationPort localPort out w).socket_out = out) := by
  obtain ⟨c1, c2, c3, c4, c5, c6⟩ :=
    createUDPClientSocket_cases os serverIP destinationPort localPort out w
  obtain ⟨r1, r2⟩ := createUDPClientSocket_ret os serverIP destinationPort localPort out w
  refine ⟨fun h1 => by rw [c1 h1], fun h1 h2 => by rw [c2 h1 h2],
    fun h1 h2 h3 => by rw [c3 h1 h2 h3], fun h1 h2 h3 h4 => by rw [c4 h1 h2 h3 h4],
    fun h1 h2 h3 h4 h5 => by rw [c5 h1 h2 h3 h4 h5], fun h => by rw [c6 h], ?_, ?_, ?_⟩
  · constructor
    · intro h
      by_contra hn
      rw [(r2 hn).1] at h
      exact absurd h (by decide)
    · exact fun h => (r1 h).1
  · intro h
    by_cases ha : UdpAllSucceed os serverIP destinationPort localPort
    · exact (r1 ha).2
    · rw [(r2 ha).1] at h
      exact absurd h (by decide)
  · intro h
    by_cases ha : UdpAllSucceed os serverIP destinationPort localPort
    · exact absurd (r1 ha).1 h
    · exact (r2 ha).2

/-- C4, at a concrete run in which all five steps succeed. -/
theorem createUDPClientSocket_steps_in_order_witness :
    (createUDPClientSocket osFine "127.0.0.1" 9001 9000 0 World.initial).world.trace =
      World.initial.trace ++ udpSteps osFine "127.0.0.1" 9001 9000 :=
  (createUDPClientSocket_steps_in_order osFine "127.0.0.1" 9001 9000 0 World.initial).2.2.2.2.2.1
    ⟨by decide, by decide, by decide, by decide, by decide⟩

/-- C5, refuted as stated: a run that fails first at the peer-address-parse
step (unparsable remote address), a run that fails first at the bind step and
a run that fails first at the connect step all return the same value. -/
theorem createUDPClientSocket_same_value_for_different_steps :
    (udpSock osFine ≠ INVALID_SOCKET ∧ udpLocalParse osFine = 1 ∧
      udpBind osFine 9000 ≠ SOCKET_ERROR ∧ udpPeerParse osFine "not-an-address" ≠ 1) ∧
    (udpSock osBindFails ≠ INVALID_SOCKET ∧ udpLocalParse osBindFails = 1 ∧
      udpBind osBindFails 9000 = SOCKET_ERROR) ∧
    (udpSock (osRefused 10061) ≠ INVALID_SOCKET ∧ udpLocalParse (osRefused 10061) = 1 ∧
      udpBind (osRefused 10061) 9000 ≠ SOCKET_ERROR ∧
      udpPeerParse (osRefused 10061) "127.0.0.1" = 1 ∧
      udpConnect (osRefused 10061) "127.0.0.1" 9001 = SOCKET_ERROR) ∧
    (createUDPClientSocket osFine "not-an-address" 9001 9000 0 World.initial).ret = 1 ∧
    (createUDPClientSocket osBindFails "127.0.0.1" 9001 9000 0 World.initial).ret = 1 ∧
    (createUDPClientSocket (osRefused 10061) "127.0.0.1" 9001 9000 0 World.initial).ret = 1 := by
  decide

/-- C5, amended: the value `createUDPClientSocket` returns tells success from
failure and nothing more: any two failing runs return the same value, 1,
whichever step failed first. -/
theorem createUDPClientSocket_failure_value (os os' : OS) (serverIP serverIP' : String)
    (destinationPort localPort destinationPort' localPort' : Nat) (out out' : Nat)
    (w w' : World)
    (h : (createUDPClientSocket os serverIP destinationPort localPort out w).ret ≠ 0)
    (h' : (createUDPClientSocket os' serverIP' destinationPort' localPort' out' w').ret ≠ 0) :
    (createUDPClientSocket os serverIP destinationPort localPort out w).ret = 1 ∧
    (createUDPClientSocket os' serverIP' destinationPort' localPort' out' w').ret = 1 ∧
    (createUDPClientSocket os serverIP destinationPort localPort out w).ret =
      (createUDPClientSocket os' serverIP' destinationPort' localPort' out' w').ret := by
  have key : ∀ (os : OS) (serverIP : String) (destinationPort localPort out : Nat) (w : World),
      (createUDPClientSocket os serverIP destinationPort localPort out w).ret ≠ 0 →
      (createUDPClientSocket os serverIP destinationPort localPort out w).ret = 1 := by
    intro os serverIP destinationPort localPort out w hne
    obtain ⟨r1, r2⟩ := createUDPClientSocket_ret os serverIP destinationPort localPort out w
    by_cases ha : UdpAllSucceed os serverIP destinationPort localPort
    · exact absurd (r1 ha).1 hne
    · exact (r2 ha).1
  have e := key os serverIP destinationPort localPort out w h
  have e' := key os' serverIP' destinationPort' localPort' out' w' h'
  exact ⟨e, e', e.trans e'.symm⟩

/-- C5, amended, at two concrete runs: an unparsable remote address and a
failing bind. -/
theorem createUDPClientSocket_failure_value_witness :
    (createUDPClientSocket osFine "not-an-address" 9001 9000 0 World.initial).ret = 1 ∧
    (createUDPClientSocket osBindFails "127.0.0.1" 9001 9000 0 World.initial).ret = 1 ∧
    (createUDPClientSocket osFine "not-an-address" 9001 9000 0 World.initial).ret =
      (createUDPClientSocket osBindFails "127.0.0.1" 9001 9000 0 World.initial).ret :=
  createUDPClientSocket_failure_value osFine osBindFails "not-an-address" "127.0.0.1"
    9001 9000 9001 9000 0 0 World.initial World.initial (by decide) (by decide)

/-- C9, the failing run: the remote address does not parse.  The call returns
1, `*socket_` is unchanged, and the socket created in the first step is still
open, whereas no socket was open before the call. -/
theorem createUDPClientSocket_leaks_on_unparsable_peer :
    createUDPClientSocket osFine "not-an-address" 9001 9000 0 World.initial =
      { ret := 1, socket_out := 0
        world :=
          { openSockets := [100]
            trace := [Event.socket AF_INET SOCK_DGRAM IPPROTO_UDP 100,
              Event.inet_pton AF_INET "127.0.0.1" 1,
              Event.bind 100 { family := AF_INET, port := 10275, addr := 16777343 } 16 0,
              Event.inet_pton AF_INET "not-an-address" 0] } } ∧
    (createUDPClientSocket osFine "not-an-address" 9001 9000 0 World.initial).world.openSockets ≠
      World.initial.openSockets := by
  decide

/-! ## `sendtcp` and `recvtcp` -/

/-- C6: `sendtcp` makes one `send` call for `(socket, buffer, bufferLength)`
and no other; when `send` returns a value other than `SOCKET_ERROR` that value
is returned, when it returns `SOCKET_ERROR` the result is -1; so a
non-negative result is the value of `send`, and the result is -1 exactly when
`send` failed. -/
theorem sendtcp_single_send (os : OS) (socket : Nat) (buffer : List Nat) (bufferLength : Int)
    (w : World) :
    (os.send socket buffer bufferLength 0 ≠ SOCKET_ERROR →
      sendtcp os socket buffer bufferLength w =
        (os.send socket buffer bufferLength 0,
          w.emit (Event.send socket buffer bufferLength 0
            (os.send socket buffer bufferLength 0)))) ∧
    (os.send socket buffer bufferLength 0 = SOCKET_ERROR →
      sendtcp os socket buffer bufferLength w =
        (-1,
          { openSockets := w.openSockets
            trace := w.trace ++ [Event.send socket buffer bufferLength 0 SOCKET_ERROR,
              Event.WSAGetLastError os.WSAGetLastError,
              Event.printf ("tcp send failed with error: " ++
                fmt_d os.WSAGetLastError ++ "\n")] })) ∧
    ((sendtcp os socket buffer bufferLength w).2.trace.drop w.trace.length).filter
        Event.isSend =
      [Event.send socket buffer bufferLength 0 (os.send socket buffer bufferLength 0)] ∧
    (0 ≤ (sendtcp os socket buffer bufferLength w).1 →
      (sendtcp os socket buffer bufferLength w).1 = os.send socket buffer bufferLength 0) ∧
    ((sendtcp os socket buffer bufferLength w).1 = -1 ↔
      os.send socket buffer bufferLength 0 = SOCKET_ERROR) := by
  by_cases h : os.send socket buffer bufferLength 0 = SOCKET_ERROR
  · have e : sendtcp os socket buffer bufferLength w =
        (-1,
          { openSockets := w.openSockets
            trace := w.trace ++ [Event.send socket buffer bufferLength 0 SOCKET_ERROR,
              Event.WSAGetLastError os.WSAGetLastError,
              Event.printf ("tcp send failed with error: " ++
                fmt_d os.WSAGetLastError ++ "\n")] }) := by
      simp [sendtcp, h, World.emit]
    refine ⟨fun hn => absurd h hn, fun _ => e, ?_, ?_, ?_⟩
    · rw [e, h]
      simp [Event.isSend]
    · rw [e]
      intro h0
      exact absurd h0 (show ¬ (0 : Int) ≤ -1 by decide)
    · rw [e]
      exact ⟨fun _ => h, fun _ => rfl⟩
  · have e : sendtcp os socket buffer bufferLength w =
        (os.send socket buffer bufferLength 0,
          w.emit (Event.send socket buffer bufferLength 0
            (os.send socket buffer bufferLength 0))) := by
      simp [sendtcp, h]
    refine ⟨fun _ => e, fun hn => absurd hn h, ?_, ?_, ?_⟩
    · rw [e]
      simp [World.emit, Event.isSend]
    · rw [e]
      intro _
      rfl
    · rw [e]
      exact ⟨fun h1 => h1, fun h1 => h1⟩

/-- C6, at a concrete run: the operating system accepts all five bytes. -/
theorem sendtcp_single_send_witness :
    sendtcp osFine 100 [104, 101, 108, 108, 111] 5 World.initial =
      (osFine.send 100 [104, 101, 108, 108, 111] 5 0,
        World.initial.emit (Event.send 100 [104, 101, 108, 108, 111] 5 0
          (osFine.send 100 [104, 101, 108, 108, 111] 5 0))) :=
  (sendtcp_single_send osFine 100 [104, 101, 108, 108, 111] 5 World.initial).1 (by decide)

/-- C7: `recvtcp` returns the value of its one `recv` call on
`(socket, recvBuf, bytes)`: it returns 0 exactly when `recv` reports an
orderly shutdown (value 0), the value returned on a socket error is -1, which
is neither 0 nor any byte count. -/
theorem recvtcp_returns_recv (os : OS) (socket : Nat) (bytes : Int) (w : World) :
    (recvtcp os socket bytes w).1 = (os.recv socket bytes 0).1 ∧
    (recvtcp os socket bytes w).2.1 = (os.recv socket bytes 0).2 ∧
    (recvtcp os socket bytes w).2.2 =
      w.emit (Event.recv socket bytes 0 (os.recv socket bytes 0).1) ∧
    ((recvtcp os socket bytes w).1 = 0 ↔ (os.recv socket bytes 0).1 = 0) ∧
    ((os.recv socket bytes 0).1 = SOCKET_ERROR →
      (recvtcp os socket bytes w).1 = -1 ∧ (recvtcp os socket bytes w).1 ≠ 0 ∧
      ∀ n : Nat, (recvtcp os socket bytes w).1 ≠ (n : Int)) := by
  refine ⟨rfl, rfl, rfl, Iff.rfl, ?_⟩
  intro h
  have e : (recvtcp os socket bytes w).1 = -1 := h
  refine ⟨e, ?_, ?_⟩
  · rw [e]; decide
  · intro n
    rw [e]
    omega

/-- C7, at a concrete run: `recv` fails and `recvtcp` returns -1. -/
theorem recvtcp_returns_recv_witness :
    (recvtcp osReset 100 512 World.initial).1 = -1 ∧
    (recvtcp osReset 100 512 World.initial).1 ≠ 0 ∧
    ∀ n : Nat, (recvtcp osReset 100 512 World.initial).1 ≠ (n : Int) :=
  (recvtcp_returns_recv osReset 100 512 World.initial).2.2.2.2 (by decide)

/-! ## The port string -/

theorem digitChar_value (d : Nat) (h : d < 10) : (Nat.digitChar d).toNat - 48 = d := by
  interval_cases d <;> rfl

theorem digitChar_isDigit (d : Nat) (h : d < 10) : (Nat.digitChar d).isDigit = true := by
  interval_cases d <;> rfl

theorem digitChar_eq_zero (d : Nat) (h : d < 10) (h0 : Nat.digitChar d = '0') : d = 0 := by
  interval_cases d <;> first | rfl | exact absurd h0 (by decide)

theorem parseDecimal_snoc (l : List Char) (c : Char) :
    parseDecimal (l ++ [c]) = 10 * parseDecimal l + (c.toNat - 48) := by
  simp [parseDecimal, List.foldl_append]

theorem decimal_ne_nil (fuel n : Nat) (h : n < fuel) : decimal fuel n ≠ [] := by
  cases fuel with
  | zero => omega
  | succ fuel =>
      unfold decimal
      split_ifs <;> simp

theorem parseDecimal_decimal (fuel : Nat) : ∀ n, n < fuel → parseDecimal (decimal fuel n) = n := by
  induction fuel with
  | zero => intro n h; omega
  | succ fuel ih =>
      intro n h
      unfold decimal
      split_ifs with h10
      · simp [parseDecimal, digitChar_value n h10]
      · rw [parseDecimal_snoc, ih (n / 10) (by omega),
          digitChar_value (n % 10) (Nat.mod_lt _ (by decide))]
        omega

theorem decimal_length (fuel : Nat) :
    ∀ n e, n < fuel → n < 10 ^ (e + 1) → (decimal fuel n).length ≤ e + 1 := by
  induction fuel with
  | zero => intro n e h; omega
  | succ fuel ih =>
      intro n e h he
      unfold decimal
      split_ifs with h10
      · simp
      · cases e with
        | zero => simp at he; omega
        | succ e =>
            have hdiv : n / 10 < 10 ^ (e + 1) := by
              rw [pow_succ] at he
              omega
            have := ih (n / 10) e (by omega) hdiv
            simp only [List.length_append, List.length_singleton]
            omega

theorem decimal_isDigit (fuel : Nat) :
    ∀ n, ∀ c ∈ decimal fuel n, c.isDigit = true := by
  induction fuel with
  | zero => intro n c hc; simp [decimal] at hc
  | succ fuel ih =>
      intro n c hc
      unfold decimal at hc
      split_ifs at hc with h10
      · simp only [List.mem_singleton] at hc
        rw [hc]
        exact digitChar_isDigit n h10
      · simp only [List.mem_append, List.mem_singleton] at hc
        rcases hc with hc | hc
        · exact ih (n / 10) c hc
        · rw [hc]
          exact digitChar_isDigit (n % 10) (Nat.mod_lt _ (by decide))

theorem decimal_head_zero (fuel : Nat) :
    ∀ n, n < fuel → (decimal fuel n).head? = some '0' → n = 0 := by
  induction fuel with
  | zero => intro n h; omega
  | succ fuel ih =>
      intro n h hz
      unfold decimal at hz
      split_ifs at hz with h10
      · simp only [List.head?_cons, Option.some.injEq] at hz
        exact digitChar_eq_zero n h10 hz
      · have hlt : n / 10 < fuel := by omega
        rw [List.head?_append_of_ne_nil _ (decimal_ne_nil fuel (n / 10) hlt)] at hz
        have := ih (n / 10) hlt hz
        omega

theorem fmt_d_natCast (n : Nat) : fmt_d (n : Int) = String.mk (decimal (n + 1) n) := by
  simp [fmt_d]

/-- The first call of `connectTCP` is `getaddrinfo` with the formatted port
as service string. -/
theorem connectTCP_resolves_first (os : OS) (address : String) (port : Nat) (out : Nat)
    (w : World) :
    ∃ rest, (connectTCP os address port out w).world.trace =
      w.trace ++ Event.getaddrinfo address (fmt_d port) tcpHints
        (os.getaddrinfo address (fmt_d port) tcpHints).1 :: rest := by
  by_cases hres : resolveCode os address port = 0
  · rcases connectLoop_cases os (resolved os address port) 0 with
      ⟨j, c, hb, hc, hs⟩ | ⟨j, c, hb, hc, hs, hn⟩ | hb
    · rw [connectTCP_of_socket_fails os address port out w j c hres hb hc (by simpa using hs)]
      exact ⟨_, rfl⟩
    · rw [connectTCP_of_connects os address port out w j c hres hb hc (by simpa using hs)
        (by simpa using hn)]
      exact ⟨_, rfl⟩
    · rw [connectTCP_of_exhausted os address port out w hres hb]
      exact ⟨_, rfl⟩
  · rw [connectTCP_of_unresolved os address port out w hres]
    exact ⟨_, rfl⟩

/-- C10: for a port `p` with `0 ≤ p ≤ 65535` the string `connectTCP` formats
with `%d` and hands to `getaddrinfo` consists of 1 to 5 ASCII digits (so it
has no sign), starts with `0` only when it is the string `0` for `p = 0`,
reads back as `p`, and with its terminating NUL takes at most 6 bytes, which
fit the 20 bytes of `portString`. -/
theorem portString_canonical (os : OS) (address : String) (p : Nat) (out : Nat) (w : World)
    (hp : p ≤ 65535) :
    1 ≤ (fmt_d p).length ∧ (fmt_d p).length ≤ 5 ∧
    (∀ c ∈ (fmt_d p).data, c.isDigit = true) ∧
    ((fmt_d p).data.head? = some '0' → p = 0 ∧ fmt_d p = "0") ∧
    parseDecimal (fmt_d p).data = p ∧
    (fmt_d p).length + 1 ≤ 6 ∧
    (fmt_d p).length + 1 ≤ portStringSize ∧
    ∃ rest, (connectTCP os address p out w).world.trace =
      w.trace ++ Event.getaddrinfo address (fmt_d p) tcpHints
        (os.getaddrinfo address (fmt_d p) tcpHints).1 :: rest := by
  have hlen : (fmt_d p).length ≤ 5 := by
    rw [fmt_d_natCast]
    exact decimal_length (p + 1) p 4 (by omega) (by norm_num; omega)
  have hpos : 1 ≤ (fmt_d p).length := by
    rw [fmt_d_natCast]
    have := decimal_ne_nil (p + 1) p (by omega)
    exact List.length_pos.mpr this
  refine ⟨hpos, hlen, ?_, ?_, ?_, by omega, by unfold portStringSize; omega,
    connectTCP_resolves_first os address p out w⟩
  · rw [fmt_d_natCast]
    exact decimal_isDigit (p + 1) p
  · rw [fmt_d_natCast]
    intro hz
    have h0 : p = 0 := decimal_head_zero (p + 1) p (by omega) hz
    subst h0
    exact ⟨rfl, rfl⟩
  · rw [fmt_d_natCast]
    exact parseDecimal_decimal (p + 1) p (by omega)

/-- C10, at the largest port. -/
theorem portString_canonical_witness :
    1 ≤ (fmt_d (65535 : Nat)).length ∧ (fmt_d (65535 : Nat)).length ≤ 5 ∧
    (∀ c ∈ (fmt_d (65535 : Nat)).data, c.isDigit = true) ∧
    ((fmt_d (65535 : Nat)).data.head? = some '0' →
      65535 = 0 ∧ fmt_d (65535 : Nat) = "0") ∧
    parseDecimal (fmt_d (65535 : Nat)).data = 65535 ∧
    (fmt_d (65535 : Nat)).length + 1 ≤ 6 ∧
    (fmt_d (65535 : Nat)).length + 1 ≤ portStringSize ∧
    ∃ rest, (connectTCP osFine "localhost" 65535 0 World.initial).world.trace =
      World.initial.trace ++ Event.getaddrinfo "localhost" (fmt_d (65535 : Nat)) tcpHints
        (osFine.getaddrinfo "localhost" (fmt_d (65535 : Nat)) tcpHints).1 :: rest :=
  portString_canonical osFine "localhost" 65535 0 World.initial (by decide)

end WinNet
